import Mathlib

/-!
Verification of the Parallels shared-folders guest filesystem proxy (prl_fs).

This file shallowly embeds the operation layer of
`kmods_src/prl_fs/SharedFolders/Guest/Linux/prl_fs/inode.c` and the
mount-option parser of `super.c` (modern-kernel branches of the `#if`
version ladders), and proves properties of the embedded code.

Modelling conventions:
* the host is an oracle (`Host`): each request kind is a function from the
  request payload to the host's answer; every operation additionally returns
  the list of host requests it issued, so "no host round trip" is `reqs = []`;
* machine integers are `Nat`/`Int`; `unsigned long` jiffies arithmetic is
  taken mod 2^64 (`ul_sub`);
* kmalloc failures (`-ENOMEM` paths) are not modelled: allocation is assumed
  to succeed, as it is orthogonal to the control flow being verified;
* errno returns are `Int` (negative errno) exactly as in the C code.
-/

namespace Prlfs

/-! ## Constants -/

/-- Linux errno values used by the code (from the kernel's errno headers). -/
def ENOENT : Int := 2
def EIO : Int := 5
def EINVAL : Int := 22
def ENAMETOOLONG : Int := 36
def ESTALE : Int := 116

/-- `iattr.ia_valid` bits, from the kernel's `include/linux/fs.h`. -/
def ATTR_MODE : Nat := 1
def ATTR_UID : Nat := 2
def ATTR_GID : Nat := 4
def ATTR_SIZE : Nat := 8
def ATTR_ATIME : Nat := 16
def ATTR_MTIME : Nat := 32
def ATTR_CTIME : Nat := 64

/-- File-kind bits of `i_mode`, from the kernel's `include/uapi/linux/stat.h`. -/
def S_IFMT : Nat := 0o170000
def S_IFREG : Nat := 0o100000
def S_IFDIR : Nat := 0o040000
def S_IFLNK : Nat := 0o120000

/-- Modelled from the spec: the wire-format validity bits `_PATTR_*` are
declared in the header `prlfs.h`, which is not part of the analyzed sources.
The spec says each attribute field is "individually tagged present/absent via
a validity bitmask", so they are modelled as distinct single bits, in the
order the fields are handled by `prlfs_change_attributes`. Only their
distinctness (not their numeric values) is relied on by any theorem. -/
def _PATTR_SIZE : Nat := 1
def _PATTR_ATIME : Nat := 2
def _PATTR_MTIME : Nat := 4
def _PATTR_CTIME : Nat := 8
def _PATTR_MODE : Nat := 16
def _PATTR_UID : Nat := 32
def _PATTR_GID : Nat := 64
def _PATTR2_INO : Nat := 128

def PATH_MAX : Nat := 4096
def PAGE_SIZE : Nat := 4096
def PRLFS_UID_NOBODY : Int := 65534
def PRLFS_GID_NOGROUP : Int := 65534

/-- 2^64: the modulus of `unsigned long` arithmetic on the 64-bit targets the
module is built for. -/
def ULONG_MOD : Nat := 18446744073709551616

/-- `unsigned long` subtraction `a - b` (wrapping), as used in the jiffies
comparison `jiffies - dentry->d_time < ttl`. -/
def ul_sub (a b : Nat) : Nat := (a + (ULONG_MOD - b % ULONG_MOD)) % ULONG_MOD

/-! ## Data model -/

/-- The wire attribute structure `struct prlfs_attr` (fields per the handling
in `prlfs_change_attributes` / `attr_to_pattr`). -/
structure PrlfsAttr where
  valid : Nat
  size : Nat
  atime : Int
  mtime : Int
  ctime : Int
  mode : Nat
  uid : Int
  gid : Int
  ino : Nat
deriving DecidableEq, Repr

/-- The all-zero `prlfs_attr`, the result of `memset(pattr, 0, sizeof(...))`. -/
def pattrZero : PrlfsAttr :=
  { valid := 0, size := 0, atime := 0, mtime := 0, ctime := 0, mode := 0,
    uid := 0, gid := 0, ino := 0 }

/-- The kernel's `struct iattr` as used by `prlfs_setattr`/`attr_to_pattr`
(only the fields the code reads). -/
structure Iattr where
  ia_valid : Nat
  ia_size : Nat
  ia_atime : Int
  ia_mtime : Int
  ia_ctime : Int
  ia_mode : Nat
  ia_uid : Int
  ia_gid : Int
deriving DecidableEq, Repr

/-- The dentry state the module owns: the chain of ancestor names from the
mount root down to this entry (what `dentry_path_raw` walks), the
`PRL_DFL_UNLINKED` tombstone bit of `d_fsdata` (a single flag bit, declared
in the missing header `prlfs.h`; only `|=` and `&` with the constant occur,
so it is modelled as a `Bool`), and the jiffies freshness stamp `d_time`
(0 = unknown/invalidated). -/
structure Dentry where
  names : List String
  unlinked : Bool
  d_time : Nat
deriving DecidableEq, Repr

/-- The in-core inode fields the module reads/writes.  `bad` records that
`make_bad_inode` was called (the kernel then routes all further inode
operations to its bad-inode table). -/
structure Inode where
  i_mode : Nat
  i_size : Nat
  i_blocks : Nat
  i_atime : Int
  i_mtime : Int
  i_ctime : Int
  i_uid : Int
  i_gid : Int
  i_ino : Nat
  bad : Bool
deriving DecidableEq, Repr

/-- A dentry together with its (possibly negative) inode. -/
structure NodeSt where
  d : Dentry
  inode : Option Inode
deriving DecidableEq, Repr

/-- Per-mount state `struct prlfs_sb_info` (the fields the analyzed code
uses). uid/gid are modelled numerically. -/
structure PrlfsSbInfo where
  name : String
  ttl : Nat
  uid : Int
  gid : Int
  share : Bool
  plain : Bool
  host_inodes : Bool
  nls : String
deriving DecidableEq, Repr

/-- The caller's credentials (`current->cred`) consulted by the code. -/
structure Cred where
  fsuid : Int
  fsgid : Int
deriving DecidableEq, Repr

/-- The result of `generic_fillattr` (`struct kstat`, the fields filled from
the inode). -/
structure Kstat where
  mode : Nat
  size : Nat
  uid : Int
  gid : Int
  atime : Int
  mtime : Int
  ctime : Int
  ino : Nat
deriving DecidableEq, Repr

/-- One host round trip, as issued by the `host_request_*` helpers. -/
inductive HostReq where
  | getattr (path : String)
  | setattr (path : String) (attr : PrlfsAttr)
  | remove (path : String)
  | rename (oldPath newPath : String)
  | openf (path : String) (mode : Nat)
deriving DecidableEq, Repr

/-- The host side of the channel: an oracle answering each request kind.
`getattr` yields the attribute block or a negative errno; the others yield a
status (0 = success, negative errno otherwise). -/
structure Host where
  getattr : String → Except Int PrlfsAttr
  setattr : String → PrlfsAttr → Int
  remove : String → Int
  rename : String → String → Int
  openf : String → Nat → Int

/-! ## Wire codec: attr_to_pattr and prlfs_change_attributes -/

/-- `attr_to_pattr` (inode.c): translate a kernel `iattr` into the wire
attribute structure.  Note the C source assigns `pattr->valid = _PATTR_UID`
(plain `=`, not `|=`) in the UID branch; every other branch ORs its bit in.
The C function always returns 0, so only the produced `prlfs_attr` is
modelled. -/
def attr_to_pattr (a : Iattr) : PrlfsAttr :=
  let p := pattrZero
  let p := if a.ia_valid &&& ATTR_SIZE ≠ 0 then
      { p with size := a.ia_size, valid := p.valid ||| _PATTR_SIZE } else p
  let p := if a.ia_valid &&& (ATTR_ATIME ||| ATTR_MTIME) = (ATTR_ATIME ||| ATTR_MTIME) then
      { p with atime := a.ia_atime, mtime := a.ia_mtime,
               valid := p.valid ||| _PATTR_ATIME ||| _PATTR_MTIME } else p
  let p := if a.ia_valid &&& ATTR_CTIME ≠ 0 then
      { p with ctime := a.ia_ctime, valid := p.valid ||| _PATTR_CTIME } else p
  let p := if a.ia_valid &&& ATTR_MODE ≠ 0 then
      { p with mode := a.ia_mode &&& 0o7777, valid := p.valid ||| _PATTR_MODE } else p
  let p := if a.ia_valid &&& ATTR_UID ≠ 0 then
      { p with uid := a.ia_uid, valid := _PATTR_UID } else p
  let p := if a.ia_valid &&& ATTR_GID ≠ 0 then
      { p with gid := a.ia_gid, valid := p.valid ||| _PATTR_GID } else p
  p

/-- `prlfs_change_attributes` (inode.c): install a freshly fetched attribute
block into the inode, field by field, gated on the validity bits. -/
def prlfs_change_attributes (sb : PrlfsSbInfo) (i : Inode) (attr : PrlfsAttr) : Inode :=
  let i := if attr.valid &&& _PATTR_SIZE ≠ 0 then
      { i with i_blocks := ((attr.size + PAGE_SIZE - 1) / PAGE_SIZE) * 8,
               i_size := attr.size } else i
  let i := if attr.valid &&& _PATTR_ATIME ≠ 0 then { i with i_atime := attr.atime } else i
  let i := if attr.valid &&& _PATTR_MTIME ≠ 0 then { i with i_mtime := attr.mtime } else i
  let i := if attr.valid &&& _PATTR_CTIME ≠ 0 then { i with i_ctime := attr.ctime } else i
  let i := if attr.valid &&& _PATTR_MODE ≠ 0 then
      { i with i_mode := (i.i_mode &&& S_IFMT) ||| (attr.mode &&& 0o7777) } else i
  let i := if attr.valid &&& _PATTR_UID ≠ 0 then
      (if attr.uid = -1 then { i with i_uid := PRLFS_UID_NOBODY }
       else if sb.plain then { i with i_uid := attr.uid } else i) else i
  let i := if attr.valid &&& _PATTR_GID ≠ 0 then
      (if attr.gid = -1 then { i with i_gid := PRLFS_GID_NOGROUP }
       else if sb.plain then { i with i_gid := attr.gid } else i) else i
  let i := if sb.host_inodes ∧ attr.valid &&& _PATTR2_INO ≠ 0 then
      { i with i_ino := attr.ino } else i
  i

/-! ## Path resolver -/

/-- `prepend` (inode.c): prepend `str` to the string being built at the end
of a buffer with `buflen` bytes of remaining capacity.  In C, `*buflen` is
decremented first and the copy is refused with `-ENAMETOOLONG` when it goes
negative. -/
def prepend (buffer : String) (buflen : Int) (str : String) :
    Except Int (String × Int) :=
  let buflen' := buflen - str.length
  if buflen' < 0 then .error (-ENAMETOOLONG)
  else .ok (str ++ buffer, buflen')

/-- The dentry path "/a/b/c" built from the ancestor-name chain (root first). -/
def dpath : List String → String
  | [] => ""
  | n :: rest => "/" ++ n ++ dpath rest

/-- The kernel's `dentry_path_raw(dentry, buf, len)` (external collaborator):
writes "/" + the '/'-joined ancestor names (or "/" for the root dentry) at
the end of the `len`-byte buffer, returning `-ENAMETOOLONG` when the string
plus its NUL terminator does not fit.  The `len` passed in by the caller is
NOT updated (it is passed by value). -/
def dentry_path_raw (names : List String) (len : Int) : Except Int String :=
  let p := if names.isEmpty then "/" else dpath names
  if (p.length : Int) + 1 > len then .error (-ENAMETOOLONG) else .ok p

/-- `prlfs_get_path` (inode.c, modern branch `LINUX_VERSION_CODE ≥ 2.6.38`):
build the host-visible path by letting `dentry_path_raw` render the dentry
path into the tail of the buffer and then prepending the shared-folder name
and a leading "/".  Faithful to the source, the two `prepend` calls run with
`len` still holding the caller's original buffer length (`dentry_path_raw`
does not update it), so their capacity checks do not account for the bytes
the dentry path already consumed.  In C, an error pointer returned by
`dentry_path_raw` is passed straight into `prepend` (no `IS_ERR` check
between them), which is undefined behavior; the model charitably propagates
the error instead.  On success `*plen` becomes `strnlen(p, PAGE_SIZE-1)+1`. -/
def prlfs_get_path (names : List String) (sfname : String) (plen : Nat) :
    Except Int (String × Nat) :=
  let len : Int := plen
  match dentry_path_raw names len with
  | .error e => .error e
  | .ok p =>
    match prepend p len sfname with
    | .error e => .error e
    | .ok (p, len) =>
      match prepend p len "/" with
      | .error e => .error e
      | .ok (p, _) => .ok (p, Nat.min p.length (PAGE_SIZE - 1) + 1)

/-- The `PRLFS_STD_INODE_HEAD` prologue: a `PATH_MAX`-byte buffer is
allocated and `prlfs_get_path` is called on the dentry. -/
def get_path (d : Dentry) (sb : PrlfsSbInfo) : Except Int (String × Nat) :=
  prlfs_get_path d.names sb.name PATH_MAX

/-! ## Operation layer -/

/-- `check_dentry` (inode.c): test the `PRL_DFL_UNLINKED` tombstone bit. -/
def check_dentry (d : Dentry) : Bool := d.unlinked

/-- `prlfs_delete` (inode.c): resolve the path and issue the host remove
request.  Returns the status and the host requests issued. -/
def prlfs_delete (sb : PrlfsSbInfo) (host : Host) (d : Dentry) :
    Int × List HostReq :=
  match get_path d sb with
  | .error e => (e, [])
  | .ok (p, _) => (host.remove p, [.remove p])

/-- `prlfs_unlink` (inode.c): host remove, then `*dfl |= PRL_DFL_UNLINKED`
on success.  The tombstone flag is not consulted beforehand. -/
def prlfs_unlink (sb : PrlfsSbInfo) (host : Host) (d : Dentry) :
    Int × Dentry × List HostReq :=
  let r := prlfs_delete sb host d
  (r.1, if r.1 = 0 then { d with unlinked := true } else d, r.2)

/-- `prlfs_rmdir` (inode.c): identical control flow to `prlfs_unlink`. -/
def prlfs_rmdir (sb : PrlfsSbInfo) (host : Host) (d : Dentry) :
    Int × Dentry × List HostReq :=
  let r := prlfs_delete sb host d
  (r.1, if r.1 = 0 then { d with unlinked := true } else d, r.2)

/-- `do_prlfs_getattr` (inode.c): resolve the path and issue the host
get-attributes request. -/
def do_prlfs_getattr (sb : PrlfsSbInfo) (host : Host) (d : Dentry) :
    Except Int PrlfsAttr × List HostReq :=
  match get_path d sb with
  | .error e => (.error e, [])
  | .ok (p, _) => (host.getattr p, [.getattr p])

/-- The kernel's `make_bad_inode` (external collaborator): marks the inode
bad and resets `i_mode` to `S_IFREG`; all further inode operations are
routed to the kernel's bad-inode table (which fails them with `-EIO`).  The
timestamp reset it also performs is irrelevant here and not modelled. -/
def make_bad_inode (i : Inode) : Inode := { i with bad := true, i_mode := S_IFREG }

/-- `prlfs_i_revalidate` (inode.c): the attribute cache.  A nonzero
`d_time` within TTL short-circuits with success; otherwise the attributes
are re-fetched from the host, a kind mismatch (`(i_mode ^ attr->mode) &
S_IFMT`) marks the inode bad and yields `-EIO`, and in either non-error case
`d_time` is stamped with the current jiffies. -/
def prlfs_i_revalidate (sb : PrlfsSbInfo) (host : Host) (jiffies : Nat)
    (n : NodeSt) : Int × NodeSt × List HostReq :=
  match n.inode with
  | none => (-ENOENT, n, [])
  | some inode =>
    if n.d.d_time ≠ 0 ∧ ul_sub jiffies n.d.d_time < sb.ttl then (0, n, [])
    else
      match do_prlfs_getattr sb host n.d with
      | (.error e, reqs) => (e, n, reqs)
      | (.ok attr, reqs) =>
        if (inode.i_mode ^^^ attr.mode) &&& S_IFMT ≠ 0 then
          (- EIO, { n with inode := some (make_bad_inode inode),
                           d := { n.d with d_time := jiffies } }, reqs)
        else
          (0, { n with inode := some (prlfs_change_attributes sb inode attr),
                       d := { n.d with d_time := jiffies } }, reqs)

/-- `prlfs_uid_valid` (inode.c): a uid is "valid" unless it is the nobody
placeholder. -/
def prlfs_uid_valid (uid : Int) : Bool := uid ≠ PRLFS_UID_NOBODY

/-- `prlfs_gid_valid` (inode.c). -/
def prlfs_gid_valid (gid : Int) : Bool := gid ≠ PRLFS_GID_NOGROUP

/-- The kernel's `generic_fillattr` (external collaborator): copy the in-core
inode attributes into a `kstat`. -/
def prlfs_fillattr (i : Inode) : Kstat :=
  { mode := i.i_mode, size := i.i_size, uid := i.i_uid, gid := i.i_gid,
    atime := i.i_atime, mtime := i.i_mtime, ctime := i.i_ctime, ino := i.i_ino }

/-- `__prlfs_getattr` (inode.c): the tombstone check comes first and
short-circuits with `-ESTALE` before anything else (path resolution
included); then the attribute cache is consulted/refreshed and the stat is
filled from the inode, with the `share`-mount uid/gid substitution. -/
def __prlfs_getattr (sb : PrlfsSbInfo) (host : Host) (jiffies : Nat)
    (cred : Cred) (n : NodeSt) : Except Int Kstat × NodeSt × List HostReq :=
  if check_dentry n.d then (.error (-ESTALE), n, [])
  else
    let r := prlfs_i_revalidate sb host jiffies n
    if r.1 < 0 then (.error r.1, r.2.1, r.2.2)
    else
      match r.2.1.inode with
      | none => (.error (-ENOENT), r.2.1, r.2.2)
      | some inode =>
        let st := prlfs_fillattr inode
        let st := if sb.share then
            let st := if prlfs_uid_valid st.uid then { st with uid := cred.fsuid } else st
            if prlfs_gid_valid st.gid then { st with gid := cred.fsgid } else st
          else st
        (.ok st, r.2.1, r.2.2)

/-- The kernel's `setattr_copy` (external collaborator), as invoked through
`prlfs_setattr_copy`: copy the requested `iattr` fields into the inode. -/
def setattr_copy (i : Inode) (a : Iattr) : Inode :=
  let i := if a.ia_valid &&& ATTR_UID ≠ 0 then { i with i_uid := a.ia_uid } else i
  let i := if a.ia_valid &&& ATTR_GID ≠ 0 then { i with i_gid := a.ia_gid } else i
  let i := if a.ia_valid &&& ATTR_ATIME ≠ 0 then { i with i_atime := a.ia_atime } else i
  let i := if a.ia_valid &&& ATTR_MTIME ≠ 0 then { i with i_mtime := a.ia_mtime } else i
  let i := if a.ia_valid &&& ATTR_CTIME ≠ 0 then { i with i_ctime := a.ia_ctime } else i
  let i := if a.ia_valid &&& ATTR_MODE ≠ 0 then { i with i_mode := a.ia_mode } else i
  i

/-- `prlfs_inode_setattr` (inode.c, modern branch): truncate the in-core size
when a size change is requested, then copy the remaining fields.
`inode_newsize_ok` (an external limit check) is modelled as succeeding. -/
def prlfs_inode_setattr (i : Inode) (a : Iattr) : Int × Inode :=
  let i := if a.ia_valid &&& ATTR_SIZE ≠ 0 ∧ a.ia_size ≠ i.i_size then
      { i with i_size := a.ia_size } else i
  (0, setattr_copy i a)

/-- `prlfs_setattr` (inode.c): resolve the path, translate the `iattr`
(`attr_to_pattr` always succeeds), short-circuit with `-ESTALE` on a
tombstoned dentry BEFORE issuing the host set-attributes request, otherwise
send the request, mirror the change into the in-core inode on success, and
unconditionally reset `d_time` to 0 on the non-short-circuit path. -/
def prlfs_setattr (sb : PrlfsSbInfo) (host : Host) (a : Iattr) (n : NodeSt) :
    Int × NodeSt × List HostReq :=
  match get_path n.d sb with
  | .error e => (e, n, [])
  | .ok (p, _) =>
    let pattr := attr_to_pattr a
    if check_dentry n.d then (-ESTALE, n, [])
    else
      let hret := host.setattr p pattr
      let n1 := if hret = 0 then
          { n with inode := n.inode.map (fun i => (prlfs_inode_setattr i a).2) }
        else n
      (hret, { n1 with d := { n1.d with d_time := 0 } }, [.setattr p pattr])

/-- `__prlfs_rename` (inode.c): resolve both paths, issue the host rename,
and reset `d_time` on BOTH dentries (even when the host request failed: the
source does not test `ret` before the two `d_time = 0` stores).  The
tombstone flag of neither dentry is touched. -/
def __prlfs_rename (sb : PrlfsSbInfo) (host : Host) (old_de new_de : Dentry) :
    Int × Dentry × Dentry × List HostReq :=
  match get_path old_de sb with
  | .error e => (e, old_de, new_de, [])
  | .ok (p, _) =>
    match get_path new_de sb with
    | .error e => (e, old_de, new_de, [])
    | .ok (np, _) =>
      (host.rename p np, { old_de with d_time := 0 }, { new_de with d_time := 0 },
       [.rename p np])

/-- `prlfs_rename` (inode.c, `LINUX_VERSION_CODE ≥ 4.9`): a nonzero `flags`
argument is rejected with `-EINVAL` before `__prlfs_rename` is entered. -/
def prlfs_rename (sb : PrlfsSbInfo) (host : Host) (flags : Nat)
    (old_de new_de : Dentry) : Int × Dentry × Dentry × List HostReq :=
  if flags ≠ 0 then (-EINVAL, old_de, new_de, [])
  else __prlfs_rename sb host old_de new_de

/-- `prlfs_get_inode` (inode.c): allocate a fresh in-core inode.  `now` is
`current_time`, `ino` the value of `get_next_ino()`, `cuid`/`cgid` the
caller's credentials (used on `share` mounts). -/
def prlfs_get_inode (sb : PrlfsSbInfo) (mode : Nat) (now : Int) (ino : Nat)
    (cuid cgid : Int) : Inode :=
  { i_mode := mode, i_size := 0, i_blocks := 0,
    i_atime := now, i_mtime := now, i_ctime := now,
    i_uid := if sb.share then cuid else sb.uid,
    i_gid := if sb.share then cgid else sb.gid,
    i_ino := ino, bad := false }

/-- `prlfs_inode_open` (inode.c): resolve the path and issue the host
open-with-create request. -/
def prlfs_inode_open (sb : PrlfsSbInfo) (host : Host) (d : Dentry) (mode : Nat) :
    Int × List HostReq :=
  match get_path d sb with
  | .error e => (e, [])
  | .ok (p, _) => (host.openf p mode, [.openf p mode])

/-- `prlfs_mknod` (inode.c): reset `d_time` to 0 and instantiate a fresh
inode on the dentry (allocation assumed to succeed; the `d_fsdata` flags are
not touched). -/
def prlfs_mknod (sb : PrlfsSbInfo) (mode : Nat) (now : Int) (ino : Nat)
    (cuid cgid : Int) (n : NodeSt) : Int × NodeSt :=
  (0, { n with d := { n.d with d_time := 0 },
               inode := some (prlfs_get_inode sb mode now ino cuid cgid) })

/-- `prlfs_create` (inode.c): host open-with-create (`mode | S_IFREG`),
then `prlfs_mknod` on success. -/
def prlfs_create (sb : PrlfsSbInfo) (host : Host) (mode : Nat) (now : Int)
    (ino : Nat) (cuid cgid : Int) (n : NodeSt) : Int × NodeSt × List HostReq :=
  let r := prlfs_inode_open sb host n.d (mode ||| S_IFREG)
  if r.1 = 0 then
    let m := prlfs_mknod sb (mode ||| S_IFREG) now ino cuid cgid n
    (m.1, m.2, r.2)
  else (r.1, n, r.2)

/-- `prlfs_mkdir` (inode.c): as `prlfs_create` but with `S_IFDIR`. -/
def prlfs_mkdir (sb : PrlfsSbInfo) (host : Host) (mode : Nat) (now : Int)
    (ino : Nat) (cuid cgid : Int) (n : NodeSt) : Int × NodeSt × List HostReq :=
  let r := prlfs_inode_open sb host n.d (mode ||| S_IFDIR)
  if r.1 = 0 then
    let m := prlfs_mknod sb (mode ||| S_IFDIR) now ino cuid cgid n
    (m.1, m.2, r.2)
  else (r.1, n, r.2)

/-- `prlfs_lookup` (inode.c): host get-attributes on the child path;
`-ENOENT` is converted into a successful negative lookup; on success a fresh
inode is instantiated with the fetched attributes.  In the non-error cases
`d_time` is stamped with the current jiffies; on any other error the dentry
is left untouched.  The `d_fsdata` flags are never modified. -/
def prlfs_lookup (sb : PrlfsSbInfo) (host : Host) (jiffies : Nat) (now : Int)
    (ino : Nat) (cuid cgid : Int) (n : NodeSt) : Int × NodeSt × List HostReq :=
  match do_prlfs_getattr sb host n.d with
  | (.error e, reqs) =>
    if e = -ENOENT then
      (0, { n with inode := none, d := { n.d with d_time := jiffies } }, reqs)
    else (e, n, reqs)
  | (.ok attr, reqs) =>
    let inode := prlfs_change_attributes sb
        (prlfs_get_inode sb attr.mode now ino cuid cgid) attr
    (0, { n with inode := some inode, d := { n.d with d_time := jiffies } }, reqs)

/-! ## The operation alphabet (for the tombstone-monotonicity invariant) -/

/-- One filesystem verb applied to a tracked node, with the ambient inputs
(jiffies clock, allocator results, caller credentials, peer dentry for
rename) it needs. -/
inductive FsOp where
  | lookup (jiffies : Nat) (now : Int) (ino : Nat) (cuid cgid : Int)
  | create (mode : Nat) (now : Int) (ino : Nat) (cuid cgid : Int)
  | mkdir (mode : Nat) (now : Int) (ino : Nat) (cuid cgid : Int)
  | unlink
  | rmdir
  | renameSrc (flags : Nat) (other : Dentry)
  | renameDst (flags : Nat) (other : Dentry)
  | getattr (jiffies : Nat) (cred : Cred)
  | setattr (a : Iattr)
  | revalidate (jiffies : Nat)
deriving Repr

/-- The state of the tracked node after one operation of the layer runs on
it (`renameSrc`/`renameDst`: the node is the source resp. destination of a
`prlfs_rename`). -/
def fsStep (sb : PrlfsSbInfo) (host : Host) (op : FsOp) (n : NodeSt) : NodeSt :=
  match op with
  | .lookup j now ino cu cg => (prlfs_lookup sb host j now ino cu cg n).2.1
  | .create m now ino cu cg => (prlfs_create sb host m now ino cu cg n).2.1
  | .mkdir m now ino cu cg => (prlfs_mkdir sb host m now ino cu cg n).2.1
  | .unlink => { n with d := (prlfs_unlink sb host n.d).2.1 }
  | .rmdir => { n with d := (prlfs_rmdir sb host n.d).2.1 }
  | .renameSrc fl other => { n with d := (prlfs_rename sb host fl n.d other).2.1 }
  | .renameDst fl other => { n with d := (prlfs_rename sb host fl other n.d).2.2.1 }
  | .getattr j cred => (__prlfs_getattr sb host j cred n).2.1
  | .setattr a => (prlfs_setattr sb host a n).2.1
  | .revalidate j => (prlfs_i_revalidate sb host j n).2.1

/-! ## Mount-option parsing (super.c) -/

/-- `prlfs_strtoui` (super.c): parse an unsigned decimal, rejecting empty or
non-digit input; the overflow guard compares the 32-bit-wrapped accumulator
against its previous value. -/
def strtoui_go : List Char → Nat → Except Int Nat
  | [], acc => .ok acc
  | c :: cs, acc =>
    if c.isDigit then
      let next := (acc * 10 + (c.toNat - 48)) % 4294967296
      if acc > next then .error (-EINVAL) else strtoui_go cs next
    else .error (-EINVAL)

/-- `prlfs_strtoui` entry point (NULL is modelled by the empty string, which
the C code also rejects). -/
def prlfs_strtoui (s : String) : Except Int Nat :=
  if s.isEmpty then .error (-EINVAL) else strtoui_go s.toList 0

/-- The `strchr(opt, '=')` split of one option into key and value: the value
is absent when there is no `=` or nothing follows it. -/
def splitOpt (opt : String) : String × Option String :=
  if opt.contains '=' then
    let key := opt.takeWhile (fun c => c ≠ '=')
    let v := opt.drop (key.length + 1)
    (key, if v.isEmpty then none else some v)
  else (opt, none)

/-- One iteration of the option loop in `prlfs_parse_mount_options`: empty
tokens are skipped, the recognized keys update the sb-info, anything else is
`-EINVAL`.  `strncpy` truncation of `nls`/`name` is not modelled (the buffer
sizes live in the missing header and no theorem depends on them). -/
def apply_opt (sbi : PrlfsSbInfo) (opt : String) : Except Int PrlfsSbInfo :=
  if opt = "" then .ok sbi
  else
    let kv := splitOpt opt
    let key := kv.1
    match kv.2 with
    | some v =>
      if key = "ttl" then
        match prlfs_strtoui v with
        | .ok u => .ok { sbi with ttl := u }
        | .error e => .error e
      else if key = "uid" then
        match prlfs_strtoui v with
        | .ok u => .ok { sbi with uid := (u : Int) }
        | .error e => .error e
      else if key = "gid" then
        match prlfs_strtoui v with
        | .ok u => .ok { sbi with gid := (u : Int) }
        | .error e => .error e
      else if key = "nls" then .ok { sbi with nls := v }
      else if key = "share" then .ok { sbi with share := true }
      else if key = "plain" then .ok { sbi with plain := true }
      else if key = "host_inodes" then .ok { sbi with host_inodes := true }
      else if key = "sf" then .ok { sbi with name := v }
      else .error (-EINVAL)
    | none =>
      if key = "share" then .ok { sbi with share := true }
      else if key = "plain" then .ok { sbi with plain := true }
      else if key = "host_inodes" then .ok { sbi with host_inodes := true }
      else .error (-EINVAL)

/-- The `strsep` loop body, folded over the comma-separated tokens. -/
def apply_opts : List String → PrlfsSbInfo → Except Int PrlfsSbInfo
  | [], sbi => .ok sbi
  | o :: os, sbi =>
    match apply_opt sbi o with
    | .ok sbi' => apply_opts os sbi'
    | .error e => .error e

/-- `prlfs_parse_mount_options` (super.c): seed the sb-info with the
caller's uid/gid and `ttl = HZ` (`hz` is the kernel tick rate, a
configuration constant), then fold the comma-separated options.  A NULL
options pointer (`none`) keeps the defaults. -/
def prlfs_parse_mount_options (hz : Nat) (options : Option String)
    (cred_uid cred_gid : Int) : Except Int PrlfsSbInfo :=
  let sbi : PrlfsSbInfo :=
    { name := "", ttl := hz, uid := cred_uid, gid := cred_gid,
      share := false, plain := false, host_inodes := false, nls := "" }
  match options with
  | none => .ok sbi
  | some s => apply_opts (s.splitOn ",") sbi

/-! ## Concrete fixtures used by closed theorems -/

/-- A plain mount of the shared folder "sf" with TTL 100 ticks. -/
def sbFix : PrlfsSbInfo :=
  { name := "sf", ttl := 100, uid := 0, gid := 0, share := false,
    plain := false, host_inodes := false, nls := "" }

/-- A host-side attribute block describing a regular file. -/
def attrRegFix : PrlfsAttr :=
  { valid := _PATTR_SIZE ||| _PATTR_MODE, size := 7, atime := 0, mtime := 0,
    ctime := 0, mode := 0o100644, uid := 0, gid := 0, ino := 0 }

/-- A host that answers every request successfully and reports a regular
file for every path (e.g. the path was recreated by another actor). -/
def hostFix : Host :=
  { getattr := fun _ => .ok attrRegFix, setattr := fun _ _ => 0,
    remove := fun _ => 0, rename := fun _ _ => 0, openf := fun _ _ => 0 }

/-- A cached directory inode. -/
def inodeDirFix : Inode :=
  { i_mode := 0o040755, i_size := 0, i_blocks := 0, i_atime := 0, i_mtime := 0,
    i_ctime := 0, i_uid := 0, i_gid := 0, i_ino := 2, bad := false }

/-- A cached regular-file inode. -/
def inodeRegFix : Inode :=
  { i_mode := 0o100644, i_size := 7, i_blocks := 8, i_atime := 0, i_mtime := 0,
    i_ctime := 0, i_uid := 0, i_gid := 0, i_ino := 3, bad := false }

/-- An entry "x" that was already tombstoned by a successful remove. -/
def dTombFix : Dentry := { names := ["x"], unlinked := true, d_time := 9 }

/-- The same entry before the remove. -/
def dPlainFix : Dentry := { names := ["x"], unlinked := false, d_time := 9 }

/-- A rename-destination entry "y". -/
def dDestFix : Dentry := { names := ["y"], unlinked := false, d_time := 4 }

/-- A live node whose cached attributes were fetched at jiffies 9. -/
def nPlainFix : NodeSt := { d := dPlainFix, inode := some inodeRegFix }

/-- A node cached as a directory whose attribute cache is cold. -/
def nDirFix : NodeSt :=
  { d := { names := ["x"], unlinked := false, d_time := 0 }, inode := some inodeDirFix }

/-- Caller credentials. -/
def credFix : Cred := { fsuid := 1000, fsgid := 1000 }

/-- The fixture mount remounted with `ttl=0` (always re-validate). -/
def sbTtl0Fix : PrlfsSbInfo := { sbFix with ttl := 0 }

/-- A set-attributes request changing mode and size. -/
def iattrFix : Iattr :=
  { ia_valid := ATTR_MODE ||| ATTR_SIZE, ia_size := 1, ia_atime := 0,
    ia_mtime := 0, ia_ctime := 0, ia_mode := 0o600, ia_uid := 0, ia_gid := 0 }

/-- A set-attributes request changing size, times, mode, uid and gid all at
once. -/
def iattrUidFix : Iattr :=
  { ia_valid := ATTR_SIZE ||| ATTR_ATIME ||| ATTR_MTIME ||| ATTR_CTIME |||
                ATTR_MODE ||| ATTR_UID ||| ATTR_GID,
    ia_size := 9, ia_atime := 11, ia_mtime := 12, ia_ctime := 13,
    ia_mode := 0o640, ia_uid := 5, ia_gid := 6 }

/-- A set-attributes request touching the access time but not the modify
time. -/
def iattrAtimeFix : Iattr :=
  { ia_valid := ATTR_ATIME, ia_size := 9, ia_atime := 11, ia_mtime := 12,
    ia_ctime := 13, ia_mode := 0o640, ia_uid := 5, ia_gid := 6 }

/-- A string of `n` copies of 'a'. -/
def repA (n : Nat) : String := String.mk (List.replicate n 'a')

/-- Sixteen path components of 254 characters each: the dentry path
"/aa…a/…" is 16 * 255 = 4080 characters, which fits in the PATH_MAX
buffer on its own. -/
def cexNames : List String := List.replicate 16 (repA 254)

/-- A 100-character shared-folder name; composed with `cexNames` the full
host path is 1 + 100 + 4080 = 4181 > PATH_MAX characters. -/
def cexSf : String := repA 100

end Prlfs



namespace Prlfs

/-! ## Helper lemmas -/

/-- The only error `prepend` can produce is `-ENAMETOOLONG`. -/
theorem prepend_err {b : String} {l : Int} {s : String} {e : Int}
    (h : prepend b l s = .error e) : e = -ENAMETOOLONG := by
  simp only [prepend] at h
  split at h <;> simp_all

/-- The only error `dentry_path_raw` can produce is `-ENAMETOOLONG`. -/
theorem dentry_path_raw_err {names : List String} {l : Int} {e : Int}
    (h : dentry_path_raw names l = .error e) : e = -ENAMETOOLONG := by
  simp only [dentry_path_raw] at h
  split at h <;> split at h <;> simp_all

/-- The only error `prlfs_get_path` can produce is `-ENAMETOOLONG`. -/
theorem prlfs_get_path_err {names : List String} {sf : String} {plen : Nat} {e : Int}
    (h : prlfs_get_path names sf plen = .error e) : e = -ENAMETOOLONG := by
  simp only [prlfs_get_path] at h
  split at h
  · exact dentry_path_raw_err (e := e) (by simp_all; assumption)
  · split at h
    · exact prepend_err (e := e) (by simp_all; assumption)
    · split at h
      · exact prepend_err (e := e) (by simp_all; assumption)
      · simp_all

theorem get_path_err {d : Dentry} {sb : PrlfsSbInfo} {e : Int}
    (h : get_path d sb = .error e) : e = -ENAMETOOLONG :=
  prlfs_get_path_err h

/-- `get_path` only looks at the name chain, so tombstoning does not change it. -/
theorem get_path_tomb (d : Dentry) (sb : PrlfsSbInfo) :
    get_path { d with unlinked := true } sb = get_path d sb := rfl

/-- Wrapping unsigned subtraction of a value from itself is zero. -/
theorem ul_sub_self (j : Nat) : ul_sub j j = 0 := by
  unfold ul_sub ULONG_MOD
  omega

/-- A successful `prlfs_unlink` tombstones the dentry, and its path must
have resolved. -/
theorem prlfs_unlink_ok {sb : PrlfsSbInfo} {host : Host} {d d' : Dentry}
    {reqs : List HostReq} (h : prlfs_unlink sb host d = (0, d', reqs)) :
    d' = { d with unlinked := true } ∧
    ∃ p plen, get_path d sb = .ok (p, plen) ∧ host.remove p = 0 ∧ reqs = [.remove p] := by
  unfold prlfs_unlink prlfs_delete at h
  cases hgp : get_path d sb with
  | error e =>
    rw [hgp] at h
    have he : e = -ENAMETOOLONG := get_path_err hgp
    simp only [Prod.mk.injEq] at h
    rw [he] at h
    norm_num [ENAMETOOLONG] at h
  | ok pr =>
    obtain ⟨p, plen⟩ := pr
    rw [hgp] at h
    simp only [Prod.mk.injEq] at h
    obtain ⟨h1, h2, h3⟩ := h
    rw [if_pos h1] at h2
    exact ⟨h2.symm, p, plen, rfl, h1, h3.symm⟩

/-- `prlfs_rmdir` is the same operation as `prlfs_unlink`. -/
theorem prlfs_rmdir_eq_unlink : prlfs_rmdir = prlfs_unlink := rfl

end Prlfs

namespace Prlfs

/-- Full characterization of the validity mask produced by `attr_to_pattr`:
when a uid change is requested the mask collapses to `_PATTR_UID` plus at
most the gid bit; otherwise it is the OR of the individually requested
bits. -/
theorem attr_to_pattr_valid (a : Iattr) :
    (attr_to_pattr a).valid =
      if a.ia_valid &&& ATTR_UID ≠ 0 then
        _PATTR_UID ||| (if a.ia_valid &&& ATTR_GID ≠ 0 then _PATTR_GID else 0)
      else
        (if a.ia_valid &&& ATTR_SIZE ≠ 0 then _PATTR_SIZE else 0) |||
        (if a.ia_valid &&& (ATTR_ATIME ||| ATTR_MTIME) = (ATTR_ATIME ||| ATTR_MTIME) then
          _PATTR_ATIME ||| _PATTR_MTIME else 0) |||
        (if a.ia_valid &&& ATTR_CTIME ≠ 0 then _PATTR_CTIME else 0) |||
        (if a.ia_valid &&& ATTR_MODE ≠ 0 then _PATTR_MODE else 0) |||
        (if a.ia_valid &&& ATTR_GID ≠ 0 then _PATTR_GID else 0) := by
  simp only [attr_to_pattr, pattrZero]
  split_ifs <;> simp_all <;> rfl

/-- The wire atime/mtime values are only written in the both-times branch;
otherwise they keep the `memset` zeros. -/
theorem attr_to_pattr_times_zero (a : Iattr)
    (h : a.ia_valid &&& (ATTR_ATIME ||| ATTR_MTIME) ≠ (ATTR_ATIME ||| ATTR_MTIME)) :
    (attr_to_pattr a).atime = 0 ∧ (attr_to_pattr a).mtime = 0 := by
  simp only [attr_to_pattr, pattrZero]
  split_ifs <;> simp_all

end Prlfs

namespace Prlfs

/-- C8: when a set-attributes request changes the uid together with size,
timestamps, or mode, `attr_to_pattr` assigns (rather than ORs) the validity
mask in the UID branch, so every validity bit accumulated before the uid
field is discarded from the wire request; only a gid change requested in the
same call survives alongside the uid. -/
theorem attr_to_pattr_uid_discards_mask (a : Iattr)
    (h : a.ia_valid &&& ATTR_UID ≠ 0) :
    (attr_to_pattr a).valid =
      _PATTR_UID ||| (if a.ia_valid &&& ATTR_GID ≠ 0 then _PATTR_GID else 0) ∧
    (attr_to_pattr a).valid &&&
      (_PATTR_SIZE ||| _PATTR_ATIME ||| _PATTR_MTIME ||| _PATTR_CTIME ||| _PATTR_MODE) = 0 := by
  rw [attr_to_pattr_valid, if_pos h]
  refine ⟨rfl, ?_⟩
  split_ifs <;> decide

/-- Witness for C8 at a request changing size, both times, mode, uid and
gid: only the uid and gid bits reach the wire. -/
theorem attr_to_pattr_uid_discards_mask_witness :
    iattrUidFix.ia_valid &&& ATTR_UID ≠ 0 ∧
    ((attr_to_pattr iattrUidFix).valid =
      _PATTR_UID ||| (if iattrUidFix.ia_valid &&& ATTR_GID ≠ 0 then _PATTR_GID else 0) ∧
     (attr_to_pattr iattrUidFix).valid &&&
      (_PATTR_SIZE ||| _PATTR_ATIME ||| _PATTR_MTIME ||| _PATTR_CTIME ||| _PATTR_MODE) = 0) :=
  ⟨by decide, attr_to_pattr_uid_discards_mask iattrUidFix (by decide)⟩

/-- C10: the wire request carries the access/modify times only when both are
changed in the same call; when the two-bit test fails, neither timestamp
validity bit is set and both transmitted time values stay zero. -/
theorem attr_to_pattr_times_all_or_nothing (a : Iattr) :
    ((attr_to_pattr a).valid &&& (_PATTR_ATIME ||| _PATTR_MTIME) ≠ 0 →
      a.ia_valid &&& (ATTR_ATIME ||| ATTR_MTIME) = (ATTR_ATIME ||| ATTR_MTIME)) ∧
    (a.ia_valid &&& (ATTR_ATIME ||| ATTR_MTIME) ≠ (ATTR_ATIME ||| ATTR_MTIME) →
      (attr_to_pattr a).valid &&& (_PATTR_ATIME ||| _PATTR_MTIME) = 0 ∧
      (attr_to_pattr a).atime = 0 ∧ (attr_to_pattr a).mtime = 0) := by
  constructor
  · rw [attr_to_pattr_valid]
    split_ifs <;> intro hbit <;> first | assumption | exact absurd (by decide) hbit
  · intro hne
    refine ⟨?_, attr_to_pattr_times_zero a hne⟩
    rw [attr_to_pattr_valid]
    split_ifs <;> decide

/-- Witness for C10 at a request changing only the access time: no time bit
and no time value is transmitted. -/
theorem attr_to_pattr_times_all_or_nothing_witness :
    iattrAtimeFix.ia_valid &&& (ATTR_ATIME ||| ATTR_MTIME) ≠ (ATTR_ATIME ||| ATTR_MTIME) ∧
    ((attr_to_pattr iattrAtimeFix).valid &&& (_PATTR_ATIME ||| _PATTR_MTIME) = 0 ∧
     (attr_to_pattr iattrAtimeFix).atime = 0 ∧ (attr_to_pattr iattrAtimeFix).mtime = 0) :=
  ⟨by decide, (attr_to_pattr_times_all_or_nothing iattrAtimeFix).2 (by decide)⟩

end Prlfs

namespace Prlfs

/-- C9: `prlfs_rename` rejects any nonzero flags argument with `-EINVAL`
before resolving either path, without issuing a host request, and with
both dentries (freshness stamps and tombstone flags included) unchanged. -/
theorem prlfs_rename_nonzero_flags_einval (sb : PrlfsSbInfo) (host : Host)
    (flags : Nat) (old_de new_de : Dentry) (h : flags ≠ 0) :
    prlfs_rename sb host flags old_de new_de = (-EINVAL, old_de, new_de, []) := by
  unfold prlfs_rename
  rw [if_pos h]

/-- Witness for C9 at `flags = 1`. -/
theorem prlfs_rename_nonzero_flags_einval_witness :
    prlfs_rename sbFix hostFix 1 dPlainFix dTombFix = (-EINVAL, dPlainFix, dTombFix, []) :=
  prlfs_rename_nonzero_flags_einval sbFix hostFix 1 dPlainFix dTombFix (by decide)

/-- Counterexample to C2 as stated: removing the already-tombstoned entry
"x" again, on a host where the path has been recreated and the remove
succeeds, yields a SECOND successful removal (return 0, not `-ESTALE`) and
issues another host remove request rather than short-circuiting locally. -/
theorem prlfs_unlink_twice_not_stale :
    prlfs_unlink sbFix hostFix dTombFix = (0, dTombFix, [.remove "/sf/x"]) ∧
    (0 : Int) ≠ -ESTALE ∧
    prlfs_rmdir sbFix hostFix dTombFix = (0, dTombFix, [.remove "/sf/x"]) := by
  refine ⟨?_, by decide, ?_⟩ <;> decide

/-- C2 amended: a remove on an already-tombstoned entry is NOT a local
no-op: `prlfs_unlink`/`prlfs_rmdir` never consult the tombstone flag, so the
second call resolves the path, issues another host remove request, and
returns whatever the host answers; the tombstone flag merely remains set. -/
theorem prlfs_unlink_tombstoned_contacts_host (sb : PrlfsSbInfo) (host : Host)
    (d : Dentry) (p : String) (plen : Nat)
    (htomb : d.unlinked = true) (hgp : get_path d sb = .ok (p, plen)) :
    prlfs_unlink sb host d = (host.remove p,
      if host.remove p = 0 then { d with unlinked := true } else d,
      [.remove p]) ∧
    ((prlfs_unlink sb host d).2.1).unlinked = true ∧
    prlfs_rmdir sb host d = prlfs_unlink sb host d := by
  have hu : prlfs_unlink sb host d = (host.remove p,
      if host.remove p = 0 then { d with unlinked := true } else d, [.remove p]) := by
    unfold prlfs_unlink prlfs_delete
    rw [hgp]
  refine ⟨hu, ?_, rfl⟩
  rw [hu]
  split <;> simp [htomb]

/-- Witness for the amended C2: the tombstoned fixture entry, on the
all-success host, is removed "successfully" a second time. -/
theorem prlfs_unlink_tombstoned_contacts_host_witness :
    dTombFix.unlinked = true ∧
    (prlfs_unlink sbFix hostFix dTombFix = (hostFix.remove "/sf/x",
      if hostFix.remove "/sf/x" = 0 then { dTombFix with unlinked := true } else dTombFix,
      [.remove "/sf/x"]) ∧
     ((prlfs_unlink sbFix hostFix dTombFix).2.1).unlinked = true ∧
     prlfs_rmdir sbFix hostFix dTombFix = prlfs_unlink sbFix hostFix dTombFix) :=
  ⟨by decide, prlfs_unlink_tombstoned_contacts_host sbFix hostFix dTombFix "/sf/x" 6
    (by decide) (by rfl)⟩

end Prlfs

namespace Prlfs

/-- Counterexample to C3 as stated: after a kind-mismatch revalidation
(cached directory, host reports a regular file) returns `-EIO` and marks the
inode bad, the very next revalidation at the same jiffies finds the stamped
`d_time` within TTL and returns SUCCESS (0) with no host call — not
`Inconsistent`. -/
theorem prlfs_i_revalidate_second_call_succeeds :
    (prlfs_i_revalidate sbFix hostFix 7 nDirFix).1 = - EIO ∧
    ((prlfs_i_revalidate sbFix hostFix 7 nDirFix).2.1.inode.map Inode.bad) = some true ∧
    prlfs_i_revalidate sbFix hostFix 7 ((prlfs_i_revalidate sbFix hostFix 7 nDirFix).2.1) =
      (0, (prlfs_i_revalidate sbFix hostFix 7 nDirFix).2.1, []) ∧
    (0 : Int) ≠ - EIO := by
  refine ⟨by decide, by decide, by decide, by decide⟩

/-- C3 amended: a revalidation that fetches attributes of a different kind
returns `-EIO` (Inconsistent), marks the inode bad (this module never clears
the flag), and stamps `d_time`; consequently a subsequent revalidation
within TTL (at a nonzero clock) returns success 0 WITHOUT a host call —
permanence of the bad state is enforced by the kernel's bad-inode operation
table, not by this function. -/
theorem prlfs_i_revalidate_kind_mismatch (sb : PrlfsSbInfo) (host : Host)
    (jiffies : Nat) (n : NodeSt) (inode : Inode) (p : String) (plen : Nat)
    (attr : PrlfsAttr)
    (hi : n.inode = some inode)
    (hcold : ¬(n.d.d_time ≠ 0 ∧ ul_sub jiffies n.d.d_time < sb.ttl))
    (hgp : get_path n.d sb = .ok (p, plen))
    (hga : host.getattr p = .ok attr)
    (hmis : (inode.i_mode ^^^ attr.mode) &&& S_IFMT ≠ 0) :
    prlfs_i_revalidate sb host jiffies n =
      (- EIO, { n with inode := some (make_bad_inode inode),
                       d := { n.d with d_time := jiffies } }, [.getattr p]) ∧
    (make_bad_inode inode).bad = true ∧
    (jiffies ≠ 0 → 0 < sb.ttl →
      prlfs_i_revalidate sb host jiffies
        { n with inode := some (make_bad_inode inode),
                 d := { n.d with d_time := jiffies } } =
      (0, { n with inode := some (make_bad_inode inode),
                   d := { n.d with d_time := jiffies } }, [])) := by
  refine ⟨?_, rfl, ?_⟩
  · simp only [prlfs_i_revalidate, do_prlfs_getattr, hi, hgp, hga,
      if_neg hcold, if_pos hmis]
  · intro hj ht
    simp only [prlfs_i_revalidate]
    rw [if_pos]
    exact ⟨hj, by rw [ul_sub_self]; exact ht⟩

/-- Witness for the amended C3 at the cold directory fixture against the
regular-file-reporting host. -/
theorem prlfs_i_revalidate_kind_mismatch_witness :
    prlfs_i_revalidate sbFix hostFix 7 nDirFix =
      (- EIO, { nDirFix with inode := some (make_bad_inode inodeDirFix),
                             d := { nDirFix.d with d_time := 7 } }, [.getattr "/sf/x"]) ∧
    (make_bad_inode inodeDirFix).bad = true ∧
    prlfs_i_revalidate sbFix hostFix 7
        { nDirFix with inode := some (make_bad_inode inodeDirFix),
                       d := { nDirFix.d with d_time := 7 } } =
      (0, { nDirFix with inode := some (make_bad_inode inodeDirFix),
                         d := { nDirFix.d with d_time := 7 } }, []) :=
  have H := prlfs_i_revalidate_kind_mismatch sbFix hostFix 7 nDirFix inodeDirFix
    "/sf/x" 6 attrRegFix rfl (by decide) (by rfl) rfl (by decide)
  ⟨H.1, H.2.1, H.2.2 (by decide) (by decide)⟩

end Prlfs

namespace Prlfs

/-- A nonzero freshness stamp within TTL short-circuits revalidation: no
host request, state unchanged, success. -/
theorem prlfs_i_revalidate_fresh (sb : PrlfsSbInfo) (host : Host)
    (jiffies : Nat) (n : NodeSt) (inode : Inode) (hi : n.inode = some inode)
    (h0 : n.d.d_time ≠ 0) (httl : ul_sub jiffies n.d.d_time < sb.ttl) :
    prlfs_i_revalidate sb host jiffies n = (0, n, []) := by
  simp only [prlfs_i_revalidate, hi, if_pos (And.intro h0 httl)]

/-- C4: (1) a get-attributes call within TTL of the previous successful
fetch performs zero host round trips and leaves the node (its cached
`AttributeSnapshot` included) unchanged; (2) at the `__prlfs_getattr` level
the stat returned is exactly the cached attributes; (3) with `ttl = 0` every
revalidation issues a host get-attributes request; (4) the per-mount TTL
defaults to `HZ` (one second worth of ticks). -/
theorem attr_cache_ttl :
    (∀ (sb : PrlfsSbInfo) (host : Host) (jiffies : Nat) (n : NodeSt) (inode : Inode),
      n.inode = some inode → n.d.d_time ≠ 0 → ul_sub jiffies n.d.d_time < sb.ttl →
      prlfs_i_revalidate sb host jiffies n = (0, n, [])) ∧
    (∀ (sb : PrlfsSbInfo) (host : Host) (jiffies : Nat) (cred : Cred)
        (n : NodeSt) (inode : Inode),
      sb.share = false → n.d.unlinked = false → n.inode = some inode →
      n.d.d_time ≠ 0 → ul_sub jiffies n.d.d_time < sb.ttl →
      __prlfs_getattr sb host jiffies cred n = (.ok (prlfs_fillattr inode), n, [])) ∧
    (∀ (sb : PrlfsSbInfo) (host : Host) (jiffies : Nat) (n : NodeSt)
        (inode : Inode) (p : String) (plen : Nat),
      sb.ttl = 0 → n.inode = some inode → get_path n.d sb = .ok (p, plen) →
      (prlfs_i_revalidate sb host jiffies n).2.2 = [.getattr p]) ∧
    (∀ (hz : Nat) (cred_uid cred_gid : Int),
      prlfs_parse_mount_options hz none cred_uid cred_gid =
        .ok { name := "", ttl := hz, uid := cred_uid, gid := cred_gid,
              share := false, plain := false, host_inodes := false, nls := "" }) := by
  refine ⟨prlfs_i_revalidate_fresh, ?_, ?_, fun _ _ _ => rfl⟩
  · intro sb host jiffies cred n inode hsh htb hi h0 httl
    have hr := prlfs_i_revalidate_fresh sb host jiffies n inode hi h0 httl
    simp only [__prlfs_getattr, check_dentry, htb, hr, hi, hsh]
    norm_num
  · intro sb host jiffies n inode p plen httl hi hgp
    simp only [prlfs_i_revalidate, do_prlfs_getattr, hi, hgp]
    rw [if_neg (by rintro ⟨h0, hlt⟩; rw [httl] at hlt; omega)]
    rcases host.getattr p with e | attr
    · rfl
    · simp only []
      split <;> rfl

/-- Witness for C4: the fresh fixture node is served from cache at jiffies
10; with `ttl=0` the same node triggers a host fetch; and parsing a NULL
option string yields `ttl = hz` (at `hz = 250`). -/
theorem attr_cache_ttl_witness :
    prlfs_i_revalidate sbFix hostFix 10 nPlainFix = (0, nPlainFix, []) ∧
    __prlfs_getattr sbFix hostFix 10 credFix nPlainFix =
      (.ok (prlfs_fillattr inodeRegFix), nPlainFix, []) ∧
    (prlfs_i_revalidate sbTtl0Fix hostFix 10 nPlainFix).2.2 = [.getattr "/sf/x"] ∧
    prlfs_parse_mount_options 250 none 3 4 =
      .ok { name := "", ttl := 250, uid := 3, gid := 4, share := false,
            plain := false, host_inodes := false, nls := "" } :=
  ⟨attr_cache_ttl.1 sbFix hostFix 10 nPlainFix inodeRegFix rfl (by decide) (by decide),
   attr_cache_ttl.2.1 sbFix hostFix 10 credFix nPlainFix inodeRegFix rfl rfl rfl
     (by decide) (by decide),
   attr_cache_ttl.2.2.1 sbTtl0Fix hostFix 10 nPlainFix inodeRegFix "/sf/x" 6 rfl rfl
     (by rfl),
   attr_cache_ttl.2.2.2 250 3 4⟩

end Prlfs

namespace Prlfs

/-- C1: a successful remove or rmdir sets the tombstone flag, and on any
entry whose tombstone flag is set, get-attributes and set-attributes both
short-circuit with `-ESTALE`, issue no host request, and leave the node
unchanged — the tombstone check runs before any host round trip. -/
theorem tombstoned_attr_ops_stale (sb : PrlfsSbInfo) (host : Host)
    (cred : Cred) (jiffies : Nat) (n : NodeSt) (a : Iattr)
    (htomb : n.d.unlinked = true) :
    (∀ (host0 : Host) (d' : Dentry) (reqs : List HostReq),
      prlfs_unlink sb host0 n.d = (0, d', reqs) ∨
        prlfs_rmdir sb host0 n.d = (0, d', reqs) → d'.unlinked = true) ∧
    __prlfs_getattr sb host jiffies cred n = (.error (-ESTALE), n, []) ∧
    (∀ (p : String) (plen : Nat), get_path n.d sb = .ok (p, plen) →
      prlfs_setattr sb host a n = (-ESTALE, n, [])) := by
  refine ⟨?_, ?_, ?_⟩
  · intro host0 d' reqs h
    have hu : prlfs_unlink sb host0 n.d = (0, d', reqs) := by
      rcases h with h | h
      · exact h
      · rw [prlfs_rmdir_eq_unlink] at h; exact h
    obtain ⟨hd', -⟩ := prlfs_unlink_ok hu
    rw [hd']
  · simp [__prlfs_getattr, check_dentry, htomb]
  · intro p plen hgp
    simp only [prlfs_setattr]
    rw [hgp]
    simp [check_dentry, htomb]

/-- Witness for C1: on the tombstoned fixture entry, a successful remove is
seen to tombstone, and get-attributes / set-attributes both return `-ESTALE`
without contacting the host. -/
theorem tombstoned_attr_ops_stale_witness :
    dTombFix.unlinked = true ∧
    __prlfs_getattr sbFix hostFix 12 credFix { nPlainFix with d := dTombFix } =
      (.error (-ESTALE), { nPlainFix with d := dTombFix }, []) ∧
    prlfs_setattr sbFix hostFix iattrFix { nPlainFix with d := dTombFix } =
      (-ESTALE, { nPlainFix with d := dTombFix }, []) :=
  ⟨by decide,
   (tombstoned_attr_ops_stale sbFix hostFix credFix 12
      { nPlainFix with d := dTombFix } iattrFix (by decide)).2.1,
   (tombstoned_attr_ops_stale sbFix hostFix credFix 12
      { nPlainFix with d := dTombFix } iattrFix (by decide)).2.2 "/sf/x" 6 (by rfl)⟩

/-- C6: a (flag-free) rename resets the freshness stamp of BOTH the source
and the destination entries to the unknown state and tombstones neither. -/
theorem rename_invalidates_both_no_tombstone (sb : PrlfsSbInfo) (host : Host)
    (old_de new_de : Dentry) (p np : String) (plen nplen : Nat)
    (hgo : get_path old_de sb = .ok (p, plen))
    (hgn : get_path new_de sb = .ok (np, nplen)) :
    __prlfs_rename sb host old_de new_de =
      (host.rename p np, { old_de with d_time := 0 }, { new_de with d_time := 0 },
       [.rename p np]) ∧
    ({ old_de with d_time := 0 }).unlinked = old_de.unlinked ∧
    ({ new_de with d_time := 0 }).unlinked = new_de.unlinked ∧
    ({ old_de with d_time := 0 }).d_time = 0 ∧
    ({ new_de with d_time := 0 }).d_time = 0 := by
  refine ⟨?_, rfl, rfl, rfl, rfl⟩
  simp only [__prlfs_rename, hgo, hgn]

/-- Witness for C6 at the fixture entries "x" and "y". -/
theorem rename_invalidates_both_no_tombstone_witness :
    __prlfs_rename sbFix hostFix dPlainFix dDestFix =
      (hostFix.rename "/sf/x" "/sf/y", { dPlainFix with d_time := 0 },
       { dDestFix with d_time := 0 }, [.rename "/sf/x" "/sf/y"]) ∧
    ({ dPlainFix with d_time := 0 }).unlinked = dPlainFix.unlinked ∧
    ({ dDestFix with d_time := 0 }).unlinked = dDestFix.unlinked ∧
    ({ dPlainFix with d_time := 0 }).d_time = 0 ∧
    ({ dDestFix with d_time := 0 }).d_time = 0 :=
  rename_invalidates_both_no_tombstone sbFix hostFix dPlainFix dDestFix
    "/sf/x" "/sf/y" 6 6 (by rfl) (by rfl)

end Prlfs

namespace Prlfs

theorem dpath_length (l : List String) :
    (dpath l).length = l.foldr (fun s a => s.length + 1 + a) 0 := by
  induction l with
  | nil => rfl
  | cons x xs ih =>
    have h1 : ("/" : String).length = 1 := rfl
    simp [dpath, String.length_append, ih, h1]
    omega

theorem foldr_len_replicate (n : Nat) (s : String) :
    (List.replicate n s).foldr (fun t a => t.length + 1 + a) 0 = n * (s.length + 1) := by
  induction n with
  | zero => simp
  | succ k ih =>
    simp [List.replicate_succ, ih]
    ring

theorem repA_length (n : Nat) : (repA n).length = n := by
  simp [repA, String.length]

/-- Shape of a successful `prlfs_get_path`: when the dentry path fits the
buffer on its own and the shared-folder name passes the (stale) capacity
checks, the result is "/" + sfname + dentry-path with the reported length
capped at `PAGE_SIZE - 1` by `strnlen`. -/
theorem prlfs_get_path_ok_eq (names : List String) (sf : String) (plen : Nat)
    (hne : names ≠ [])
    (hfit : (dpath names).length + 1 ≤ plen)
    (hsf : sf.length + 1 ≤ plen) :
    prlfs_get_path names sf plen =
      .ok ("/" ++ (sf ++ dpath names),
           Nat.min ("/" ++ (sf ++ dpath names)).length (PAGE_SIZE - 1) + 1) := by
  have hne' : names.isEmpty = false := by cases names <;> simp_all
  have hl : ("/" : String).length = 1 := rfl
  have h1 : dentry_path_raw names (plen : Int) = .ok (dpath names) := by
    simp only [dentry_path_raw, hne', Bool.false_eq_true, if_false]
    rw [if_neg]
    omega
  have h2 : prepend (dpath names) (plen : Int) sf =
      .ok (sf ++ dpath names, (plen : Int) - sf.length) := by
    simp only [prepend]
    rw [if_neg]
    omega
  have h3 : prepend (sf ++ dpath names) ((plen : Int) - sf.length) "/" =
      .ok ("/" ++ (sf ++ dpath names), (plen : Int) - sf.length - 1) := by
    simp only [prepend]
    rw [show ((plen : Int) - sf.length - ("/" : String).length) = (plen : Int) - sf.length - 1 by rw [hl]; push_cast; ring]
    rw [if_neg]
    omega
  simp only [prlfs_get_path, h1, h2, h3]

/-- Evidence for C5 being violated by the code (the `code_bug` failing
input): with sixteen 254-character components (dentry path 4080 ≤ PATH_MAX)
and a 100-character shared-folder name, the composed host path is 4181
characters — it exceeds the PATH_MAX transport buffer — yet `prlfs_get_path`
returns success instead of `-ENAMETOOLONG`, because after `dentry_path_raw`
the remaining-capacity variable still holds the original buffer length, so
the two `prepend` checks cannot fire; the reported length is even silently
truncated to PATH_MAX by `strnlen`.  (In the C code the two `memcpy`s write
85 bytes before the start of the heap buffer.) -/
theorem prlfs_get_path_overflow_not_detected :
    PATH_MAX < 1 + cexSf.length + (dpath cexNames).length ∧
    prlfs_get_path cexNames cexSf PATH_MAX =
      .ok ("/" ++ (cexSf ++ dpath cexNames), PATH_MAX) ∧
    ("/" ++ (cexSf ++ dpath cexNames)).length = 4181 := by
  have hsf : cexSf.length = 100 := repA_length 100
  have hdp : (dpath cexNames).length = 4080 := by
    rw [dpath_length]
    show (List.replicate 16 (repA 254)).foldr _ 0 = 4080
    rw [foldr_len_replicate, repA_length]
  have hlen : ("/" ++ (cexSf ++ dpath cexNames)).length = 4181 := by
    have hl : ("/" : String).length = 1 := rfl
    simp [String.length_append, hsf, hdp, hl]
  have hok := prlfs_get_path_ok_eq cexNames cexSf PATH_MAX
    (by simp [cexNames]) (by rw [hdp]; norm_num [PATH_MAX])
    (by rw [hsf]; norm_num [PATH_MAX])
  refine ⟨by rw [hsf, hdp]; norm_num [PATH_MAX], ?_, hlen⟩
  rw [hok, hlen]
  norm_num [PAGE_SIZE, PATH_MAX]

end Prlfs

namespace Prlfs

/-- C7: the tombstone flag is monotone: no operation of the layer (lookup,
create, mkdir, remove, rmdir, rename on either side, get/set-attributes,
revalidation) ever clears `PRL_DFL_UNLINKED` once it is set. -/
theorem fsStep_never_clears_tombstone (sb : PrlfsSbInfo) (host : Host)
    (op : FsOp) (n : NodeSt) (h : n.d.unlinked = true) :
    (fsStep sb host op n).d.unlinked = true := by
  cases op <;>
    simp only [fsStep, prlfs_lookup, prlfs_create, prlfs_mkdir, prlfs_unlink,
      prlfs_rmdir, prlfs_rename, __prlfs_rename, prlfs_delete, prlfs_inode_open,
      prlfs_mknod, __prlfs_getattr, prlfs_setattr, prlfs_i_revalidate,
      do_prlfs_getattr, check_dentry] <;>
    (repeat' split) <;> simp_all

/-- Witness for C7: a second unlink and a lookup both leave the fixture
tombstone in place. -/
theorem fsStep_never_clears_tombstone_witness :
    (fsStep sbFix hostFix FsOp.unlink { nPlainFix with d := dTombFix }).d.unlinked = true ∧
    (fsStep sbFix hostFix (FsOp.lookup 20 0 7 0 0) { nPlainFix with d := dTombFix }).d.unlinked = true :=
  ⟨fsStep_never_clears_tombstone sbFix hostFix FsOp.unlink _ (by decide),
   fsStep_never_clears_tombstone sbFix hostFix (FsOp.lookup 20 0 7 0 0) _ (by decide)⟩

end Prlfs
